import Mathlib

/-!
Shallow embedding of `src/app.py` (Red Wine Quality Predictor).

The app holds eleven chemical measurements in Streamlit session state,
offers two preset buttons that overwrite all eleven values, and on the
Predict button builds a one-row pandas DataFrame whose columns come from
`list(default_values.keys())`, passes it to `scaler.transform`, then calls
`model.predict` and `model.predict_proba` on the scaled row and displays a
verdict and two confidence percentages.  A feature-importance section zips
`scaler.feature_names_in_` with `model.feature_importances_` and sorts with
pandas `sort_values('importance', ascending=False)`.

Numeric values are modelled as exact rationals (the Python code performs no
arithmetic of its own on them; they pass through the collaborators
unchanged, so float rounding plays no role in the control/data flow being
verified).  The scaler and classifier are opaque injected collaborators,
modelled as function-valued structures; their calls are recorded in an
explicit trace so that claims about which collaborator is invoked, on which
argument, in which order, are statements about the trace.
-/

namespace WineApp

/-- A Python runtime value as far as label comparison is concerned:
`prediction[0] == 'good'` in Python is `False` whenever `prediction[0]` is
not the exact string `good` (in particular for ints and other strings). -/
inductive PyVal where
  | str (s : String)
  | int (n : Int)
deriving DecidableEq, Repr

/-- Python `==` against the literal string `'good'` (src/app.py line 136). -/
def pyEqGoodLiteral : PyVal → Bool
  | .str s => s = "good"
  | .int _ => false

/-- The two verdict banners the page can show (st.success GOOD / st.error NOT GOOD). -/
inductive Verdict where
  | good
  | notGood
deriving DecidableEq, Repr

/-- src/app.py lines 136-139: GOOD is shown when `prediction[0] == 'good'`,
NOT GOOD otherwise. -/
def verdictOf (label : PyVal) : Verdict :=
  if pyEqGoodLiteral label then .good else .notGood

/-- The eleven slider values held in Streamlit session state (the only keys
this page ever reads or writes). -/
structure SessionState where
  fixed_acidity : ℚ
  volatile_acidity : ℚ
  citric_acid : ℚ
  residual_sugar : ℚ
  chlorides : ℚ
  free_sulfur_dioxide : ℚ
  total_sulfur_dioxide : ℚ
  density : ℚ
  ph : ℚ
  sulphates : ℚ
  alcohol : ℚ
deriving DecidableEq, Repr

/-- src/app.py lines 49-54: the `default_values` dict, in its insertion
order (Python dicts preserve insertion order). -/
def default_values : List (String × ℚ) :=
  [("fixed_acidity", 7.4), ("volatile_acidity", 0.7), ("citric_acid", 0.0),
   ("residual_sugar", 1.9), ("chlorides", 0.076), ("free_sulfur_dioxide", 11.0),
   ("total_sulfur_dioxide", 34.0), ("density", 0.9978), ("ph", 3.51),
   ("sulphates", 0.56), ("alcohol", 9.4)]

/-- The default value the init loop (src/app.py lines 57-59) would store for
a key, read off the `default_values` dict. -/
def defaultFor (k : String) : ℚ := (default_values.lookup k).getD 0

/-- The session state after the init loop (src/app.py lines 57-59) runs on a
fresh session (no key present yet): every key gets its `default_values`
entry. -/
def initSession : SessionState :=
  { fixed_acidity := defaultFor "fixed_acidity"
    volatile_acidity := defaultFor "volatile_acidity"
    citric_acid := defaultFor "citric_acid"
    residual_sugar := defaultFor "residual_sugar"
    chlorides := defaultFor "chlorides"
    free_sulfur_dioxide := defaultFor "free_sulfur_dioxide"
    total_sulfur_dioxide := defaultFor "total_sulfur_dioxide"
    density := defaultFor "density"
    ph := defaultFor "ph"
    sulphates := defaultFor "sulphates"
    alcohol := defaultFor "alcohol" }

/-- src/app.py lines 62-74: the callback of the Load Good Wine Example
button assigns all eleven session keys. -/
def load_good_wine_preset (s : SessionState) : SessionState :=
  { s with
    fixed_acidity := 6.6
    volatile_acidity := 0.52
    citric_acid := 0.08
    residual_sugar := 2.4
    chlorides := 0.07
    free_sulfur_dioxide := 13.0
    total_sulfur_dioxide := 32.0
    density := 0.9955
    ph := 3.42
    sulphates := 0.62
    alcohol := 11.4 }

/-- src/app.py lines 76-88: the callback of the Load Not Good Wine Example
button assigns all eleven session keys. -/
def load_not_good_wine_preset (s : SessionState) : SessionState :=
  { s with
    fixed_acidity := 7.4
    volatile_acidity := 0.7
    citric_acid := 0.0
    residual_sugar := 1.9
    chlorides := 0.076
    free_sulfur_dioxide := 11.0
    total_sulfur_dioxide := 34.0
    density := 0.9978
    ph := 3.51
    sulphates := 0.56
    alcohol := 9.4 }

/-- Name-keyed read of a session key (`st.session_state[key]`); `none` for a
key this page never initializes. -/
def getFeature (s : SessionState) : String → Option ℚ
  | "fixed_acidity" => some s.fixed_acidity
  | "volatile_acidity" => some s.volatile_acidity
  | "citric_acid" => some s.citric_acid
  | "residual_sugar" => some s.residual_sugar
  | "chlorides" => some s.chlorides
  | "free_sulfur_dioxide" => some s.free_sulfur_dioxide
  | "total_sulfur_dioxide" => some s.total_sulfur_dioxide
  | "density" => some s.density
  | "ph" => some s.ph
  | "sulphates" => some s.sulphates
  | "alcohol" => some s.alcohol
  | _ => none

/-- src/app.py line 127: `feature_names = list(default_values.keys())` — a
hand-written literal order maintained separately from the scaler. -/
def predictionFeatureNames : List String := default_values.map Prod.fst

/-- src/app.py line 128: `[st.session_state[key] for key in feature_names]`
(every name in `predictionFeatureNames` is an initialized session key, so no
lookup fails). -/
def input_values (s : SessionState) : List ℚ :=
  predictionFeatureNames.filterMap (getFeature s)

/-- src/app.py line 130: the one-row DataFrame with
`columns=feature_names`, modelled as the row of (column name, value) pairs
in column order. -/
def input_data (s : SessionState) : List (String × ℚ) :=
  predictionFeatureNames.zip (input_values s)

/-- The fitted scaler collaborator (`scaler.joblib`): its declared
feature-name order (`feature_names_in_`) and its `transform` on a one-row
named DataFrame.  A raised exception is modelled as `Except.error`. -/
structure Scaler where
  feature_names_in_ : List String
  transformRow : List (String × ℚ) → Except String (List ℚ)

/-- The trained classifier collaborator (`model.joblib`): `predict` and
`predict_proba` on the one scaled row, and the static importance scores.
Raised exceptions are modelled as `Except.error`. -/
structure Classifier where
  predictRow : List ℚ → Except String PyVal
  predictProbaRow : List ℚ → Except String (List ℚ)
  feature_importances_ : List ℚ

/-- One collaborator invocation made by the Predict handler, with its
argument; the handler returns the list of calls it made, in order. -/
inductive CallEvent where
  | transform (arg : List (String × ℚ))
  | predict (arg : List ℚ)
  | predict_proba (arg : List ℚ)
deriving DecidableEq, Repr

/-- What the handler displays on success: the verdict banner and the two
confidence values (before the presentation-layer `*100` / `%.2f`
formatting). -/
structure PredictionResult where
  verdict : Verdict
  p_good : ℚ
  p_not_good : ℚ
deriving DecidableEq, Repr

/-- src/app.py lines 125-142, the Predict button body: build `input_data`
from session state, `scaler.transform`, `model.predict`,
`model.predict_proba` (in that order, all on the same scaled row), then
display the verdict and `prediction_proba[0][1]` / `prediction_proba[0][0]`.
Any exception raised by a collaborator aborts the block (there is no
try/except around it) with no result displayed; the paired trace lists the
collaborator calls actually made. -/
def predictOutcome (sc : Scaler) (clf : Classifier) (st : SessionState) :
    Except String PredictionResult × List CallEvent :=
  match sc.transformRow (input_data st) with
  | .error e => (.error e, [.transform (input_data st)])
  | .ok scaled =>
    match clf.predictRow scaled with
    | .error e => (.error e, [.transform (input_data st), .predict scaled])
    | .ok label =>
      match clf.predictProbaRow scaled with
      | .error e =>
        (.error e, [.transform (input_data st), .predict scaled, .predict_proba scaled])
      | .ok proba =>
        match proba[1]?, proba[0]? with
        | some pg, some png =>
          (.ok ⟨verdictOf label, pg, png⟩,
           [.transform (input_data st), .predict scaled, .predict_proba scaled])
        | _, _ =>
          (.error "IndexError",
           [.transform (input_data st), .predict scaled, .predict_proba scaled])

/-- The Predict handler as a session-state transformer: the body only reads
session state (src/app.py lines 125-142 contain no `st.session_state`
write), so the state component passes through. -/
def predictClicked (sc : Scaler) (clf : Classifier) (st : SessionState) :
    SessionState × (Except String PredictionResult × List CallEvent) :=
  (st, predictOutcome sc clf st)

/-- Outcome of one `joblib.load` at module top (src/app.py lines 9-10):
loaded value, `FileNotFoundError`, or any other exception (corrupt
artifact). -/
inductive LoadResult (α : Type) where
  | ok (v : α)
  | fileNotFound
  | corrupt (e : String)

/-- Whether a load succeeded. -/
def LoadResult.isOk {α : Type} : LoadResult α → Bool
  | .ok _ => true
  | _ => false

/-- How the script run ends at module load time. -/
inductive StartupResult where
  | serving (clf : Classifier) (sc : Scaler)
  | stoppedWithError (msg : String)
  | crashed (e : String)

/-- src/app.py line 12, without the quote characters of the original. -/
def missingArtifactsMessage : String :=
  "Model or scaler files not found. Make sure model.joblib and scaler.joblib are in the same directory."

/-- src/app.py lines 8-13: the try block loads the model then the scaler;
`FileNotFoundError` is caught and turns into `st.error` plus `st.stop`
(script stops, nothing below runs); any other exception is uncaught and the
script run dies with it (Streamlit shows the exception at startup).  Only
the `serving` outcome carries collaborators, so the Predict handler exists
only after a successful load. -/
def startup (lm : LoadResult Classifier) (ls : LoadResult Scaler) : StartupResult :=
  match lm with
  | .fileNotFound => .stoppedWithError missingArtifactsMessage
  | .corrupt e => .crashed e
  | .ok clf =>
    match ls with
    | .fileNotFound => .stoppedWithError missingArtifactsMessage
    | .corrupt e => .crashed e
    | .ok sc => .serving clf sc

/-- Whether a startup outcome offers the prediction UI at all. -/
def canServePredictions : StartupResult → Bool
  | .serving _ _ => true
  | _ => false

/-- Whether a startup outcome surfaces an error to the operator: the
explicit `st.error` message, or the uncaught exception Streamlit reports. -/
def reportsStartupError : StartupResult → Bool
  | .stoppedWithError _ => true
  | .crashed _ => true
  | .serving _ _ => false

/-- src/app.py lines 148-151: pandas
`DataFrame({feature, importance}).sort_values('importance', ascending=False)`.
For a descending sort pandas computes the ascending argsort and reverses the
indexer (`pandas.core.sorting.nargsort`); on eleven elements numpy argsort
with the default kind runs its stable insertion sort, so the net effect is
the reverse of a stable ascending sort — ties come out in reversed input
order. -/
def rankedFeatureImportances (names : List String) (scores : List ℚ) :
    List (String × ℚ) :=
  ((names.zip scores).mergeSort (fun a b => decide (a.2 ≤ b.2))).reverse

/-- What the spec's words describe instead (§4.1): sorted descending by
score with ties kept in stable input order: a stable sort by the
greater-or-equal-score relation. -/
def rankedFeatureImportancesSpec (names : List String) (scores : List ℚ) :
    List (String × ℚ) :=
  (names.zip scores).mergeSort (fun a b => decide (b.2 ≤ a.2))

/-! Concrete collaborator instances used to exercise the embedding. -/

/-- A scaler whose declared feature order is the reverse of the hard-coded
`default_values` key order: the concrete input on which the prediction
path's column order and the scaler's declared order disagree. -/
def mismatchScaler : Scaler :=
  { feature_names_in_ := predictionFeatureNames.reverse
    transformRow := fun r => .ok (r.map Prod.snd) }

/-- A well-behaved scaler whose declared order matches the literal one and
whose transform strips the column names. -/
def idScaler : Scaler :=
  { feature_names_in_ := predictionFeatureNames
    transformRow := fun r => .ok (r.map Prod.snd) }

/-- A scaler whose transform raises. -/
def failScaler : Scaler :=
  { feature_names_in_ := predictionFeatureNames
    transformRow := fun _ => .error "boom" }

/-- A classifier answering the exact label good with the distribution
with all mass on the positive class. -/
def goodClf : Classifier :=
  { predictRow := fun _ => .ok (.str "good")
    predictProbaRow := fun _ => .ok [0, 1]
    feature_importances_ := [] }

/-! Theorems settling the claims. -/

/-- C1: the claim says the one-row feature vector handed to the scaler is
ordered by the scaler's own `feature_names_in_`, never by a hand-written
literal order.  The code does the opposite: for every scaler, the one
transform call receives columns in the `list(default_values.keys())` order
(first two conjuncts), so on a scaler whose declared order differs — here
`mismatchScaler`, whose `feature_names_in_` is reversed — the column order
handed over is not the scaler's declared order (last conjunct). -/
theorem prediction_columns_use_literal_order_not_scaler_order
    (sc : Scaler) (clf : Classifier) (st : SessionState) :
    (predictOutcome sc clf st).2.head? = some (.transform (input_data st)) ∧
    (input_data st).map Prod.fst = predictionFeatureNames ∧
    (input_data initSession).map Prod.fst ≠ mismatchScaler.feature_names_in_ := by
  refine ⟨?_, rfl, by decide⟩
  rcases h1 : sc.transformRow (input_data st) with e | scaled
  · simp [predictOutcome, h1]
  · rcases h2 : clf.predictRow scaled with e | label
    · simp [predictOutcome, h1, h2]
    · rcases h3 : clf.predictProbaRow scaled with e | proba
      · simp [predictOutcome, h1, h2, h3]
      · rcases h4 : proba[1]? with _ | pg <;>
          rcases h5 : proba[0]? with _ | png <;>
            simp [predictOutcome, h1, h2, h3, h4, h5]

/-- C1, evaluation at the failing input: the session-state columns the code
would hand to `mismatchScaler` are the eleven literal names, which differ
from that scaler's declared order already at the first column. -/
theorem prediction_columns_mismatch_concrete :
    (input_data initSession).map Prod.fst =
      ["fixed_acidity", "volatile_acidity", "citric_acid", "residual_sugar",
       "chlorides", "free_sulfur_dioxide", "total_sulfur_dioxide", "density",
       "ph", "sulphates", "alcohol"] ∧
    mismatchScaler.feature_names_in_.head? = some "alcohol" ∧
    ((input_data initSession).map Prod.fst).head? = some "fixed_acidity" := by
  exact ⟨rfl, rfl, rfl⟩

/-- C2: whenever either artifact load does not succeed (absent or corrupt),
the script run never reaches the `serving` state — so no prediction UI and
no per-request surfacing — and an error is reported at startup (the
`st.error` message for a missing file, the uncaught exception otherwise). -/
theorem startup_failure_is_fatal_and_reported
    (lm : LoadResult Classifier) (ls : LoadResult Scaler)
    (h : lm.isOk = false ∨ ls.isOk = false) :
    canServePredictions (startup lm ls) = false ∧
    reportsStartupError (startup lm ls) = true := by
  cases lm <;> cases ls <;>
    simp_all [startup, canServePredictions, reportsStartupError, LoadResult.isOk]

/-- C2 witness: a missing model file with a loadable scaler. -/
theorem startup_failure_witness :
    canServePredictions (startup (.fileNotFound) (.ok idScaler)) = false ∧
    reportsStartupError (startup (.fileNotFound) (.ok idScaler)) = true :=
  startup_failure_is_fatal_and_reported .fileNotFound (.ok idScaler) (Or.inl rfl)

/-- C3: the code displays `prediction_proba[0][1]` as the good confidence
and `prediction_proba[0][0]` as the not-good confidence without touching
them, so whenever the classifier returns a two-class probability
distribution, the displayed pair sums to 1 (so trivially to within 1e-9)
and both entries lie in the unit interval. -/
theorem probability_closure (sc : Scaler) (clf : Classifier) (st : SessionState)
    (hp : ∀ v p, clf.predictProbaRow v = .ok p →
        p.length = 2 ∧ p.sum = 1 ∧ ∀ x ∈ p, 0 ≤ x)
    (res : PredictionResult) (trace : List CallEvent)
    (h : predictOutcome sc clf st = (.ok res, trace)) :
    |res.p_good + res.p_not_good - 1| ≤ 1 / 1000000000 ∧
    0 ≤ res.p_good ∧ res.p_good ≤ 1 ∧
    0 ≤ res.p_not_good ∧ res.p_not_good ≤ 1 := by
  rcases h1 : sc.transformRow (input_data st) with e | scaled <;>
    simp [predictOutcome, h1] at h
  rcases h2 : clf.predictRow scaled with e | label <;> simp [h2] at h
  rcases h3 : clf.predictProbaRow scaled with e | proba <;> simp [h3] at h
  obtain ⟨hlen, hsum, hpos⟩ := hp scaled proba h3
  obtain ⟨a, b, rfl⟩ := List.length_eq_two.mp hlen
  simp at h hsum
  obtain ⟨hres, -⟩ := h
  have ha : 0 ≤ a := hpos a (by simp)
  have hb : 0 ≤ b := hpos b (by simp)
  subst hres
  simp only
  constructor
  · rw [abs_le]
    constructor <;> linarith
  · refine ⟨hb, by linarith, ha, by linarith⟩

/-- C3 witness: a classifier putting all mass on the positive class. -/
theorem probability_closure_witness :
    |(1 : ℚ) + 0 - 1| ≤ 1 / 1000000000 ∧
    0 ≤ (1 : ℚ) ∧ (1 : ℚ) ≤ 1 ∧ 0 ≤ (0 : ℚ) ∧ (0 : ℚ) ≤ 1 :=
  probability_closure idScaler goodClf initSession
    (by
      intro v p hp
      injection hp with h
      subst h
      exact ⟨rfl, by simp, by simp⟩)
    ⟨.good, 1, 0⟩
    [.transform (input_data initSession),
     .predict ((input_data initSession).map Prod.snd),
     .predict_proba ((input_data initSession).map Prod.snd)]
    rfl

/-- C6: a failure raised by `scaler.transform`, `model.predict` or
`model.predict_proba` is never swallowed, retried or replaced by a default
prediction: the block's outcome is that very error, no result is produced,
and the call trace shows each collaborator invoked at most once with
nothing invoked after the failing call. -/
theorem collaborator_failures_propagate (sc : Scaler) (clf : Classifier)
    (st : SessionState) (e : String) :
    (sc.transformRow (input_data st) = .error e →
      predictOutcome sc clf st = (.error e, [.transform (input_data st)])) ∧
    (∀ scaled, sc.transformRow (input_data st) = .ok scaled →
      clf.predictRow scaled = .error e →
      predictOutcome sc clf st =
        (.error e, [.transform (input_data st), .predict scaled])) ∧
    (∀ scaled label, sc.transformRow (input_data st) = .ok scaled →
      clf.predictRow scaled = .ok label →
      clf.predictProbaRow scaled = .error e →
      predictOutcome sc clf st =
        (.error e,
         [.transform (input_data st), .predict scaled, .predict_proba scaled])) := by
  refine ⟨fun h1 => ?_, fun scaled h1 h2 => ?_, fun scaled label h1 h2 h3 => ?_⟩
  · simp [predictOutcome, h1]
  · simp [predictOutcome, h1, h2]
  · simp [predictOutcome, h1, h2, h3]

/-- C6 witness: a scaler whose transform raises aborts the request with that
same error after the one transform call. -/
theorem collaborator_failures_propagate_witness :
    predictOutcome failScaler goodClf initSession =
      (.error "boom", [.transform (input_data initSession)]) :=
  (collaborator_failures_propagate failScaler goodClf initSession "boom").1 rfl

/-- C7: on every successful request there is exactly one transform call,
and `predict` and `predict_proba` are both invoked on its single output, in
that order; the displayed pair takes the positive-class entry (index 1) as
the good confidence and the complement entry (index 0) as the not-good
confidence, and the banner comes from the predicted label. -/
theorem single_scaled_vector_predict_then_proba (sc : Scaler) (clf : Classifier)
    (st : SessionState) (res : PredictionResult) (trace : List CallEvent)
    (h : predictOutcome sc clf st = (.ok res, trace)) :
    ∃ scaled label proba,
      sc.transformRow (input_data st) = .ok scaled ∧
      clf.predictRow scaled = .ok label ∧
      clf.predictProbaRow scaled = .ok proba ∧
      trace = [.transform (input_data st), .predict scaled, .predict_proba scaled] ∧
      proba[1]? = some res.p_good ∧
      proba[0]? = some res.p_not_good ∧
      res.verdict = verdictOf label := by
  rcases h1 : sc.transformRow (input_data st) with e | scaled <;>
    simp [predictOutcome, h1] at h
  rcases h2 : clf.predictRow scaled with e | label <;> simp [h2] at h
  rcases h3 : clf.predictProbaRow scaled with e | proba <;> simp [h3] at h
  rcases h4 : proba[1]? with _ | pg <;> rcases h5 : proba[0]? with _ | png <;>
    simp [h4, h5] at h
  obtain ⟨hres, htrace⟩ := h
  subst hres
  exact ⟨scaled, label, proba, by simp [h1], by simp [h2], by simp [h3],
    htrace.symm, h4, h5, rfl⟩

/-- C7 witness: with the identity-like scaler and the all-good classifier
the successful request decomposes as the theorem states. -/
theorem single_scaled_vector_predict_then_proba_witness :
    ∃ scaled label proba,
      idScaler.transformRow (input_data initSession) = .ok scaled ∧
      goodClf.predictRow scaled = .ok label ∧
      goodClf.predictProbaRow scaled = .ok proba ∧
      [CallEvent.transform (input_data initSession),
       .predict ((input_data initSession).map Prod.snd),
       .predict_proba ((input_data initSession).map Prod.snd)] =
        [.transform (input_data initSession), .predict scaled, .predict_proba scaled] ∧
      proba[1]? = some (1 : ℚ) ∧
      proba[0]? = some (0 : ℚ) ∧
      Verdict.good = verdictOf label :=
  single_scaled_vector_predict_then_proba idScaler goodClf initSession
    ⟨.good, 1, 0⟩
    [.transform (input_data initSession),
     .predict ((input_data initSession).map Prod.snd),
     .predict_proba ((input_data initSession).map Prod.snd)]
    rfl

/-- C4: the Predict handler writes nothing to session state, and invoking it
again on the state it returned yields the identical state and output — there
is no arity of hidden mutable state the embedded handler could touch. -/
theorem predict_deterministic_no_side_effects
    (sc : Scaler) (clf : Classifier) (st : SessionState) :
    (predictClicked sc clf st).1 = st ∧
    predictClicked sc clf (predictClicked sc clf st).1 = predictClicked sc clf st :=
  ⟨rfl, rfl⟩

/-- C5 counterexample: on a two-way tie the chart ranking produced by the
code (reverse of a stable ascending sort, which is what the pandas
descending sort amounts to) differs from the stable descending ranking the
claim describes: with equal scores the code lists b before a, the stable
order a before b. -/
theorem ranked_ties_not_stable :
    rankedFeatureImportances ["a", "b"] [5, 5] = [("b", 5), ("a", 5)] ∧
    rankedFeatureImportancesSpec ["a", "b"] [5, 5] = [("a", 5), ("b", 5)] ∧
    rankedFeatureImportances ["a", "b"] [5, 5] ≠
      rankedFeatureImportancesSpec ["a", "b"] [5, 5] := by
  refine ⟨?_, ?_, ?_⟩
  · simp [rankedFeatureImportances, List.mergeSort]
  · simp [rankedFeatureImportancesSpec, List.mergeSort]
  · simp [rankedFeatureImportances, rankedFeatureImportancesSpec, List.mergeSort]

/-- C5 amended: the ranking zips names with scores by position and is
sorted non-increasing by score and is a permutation of the zipped input,
but equal scores come out in reversed input order, not in stable input
order. -/
theorem rankedFeatureImportances_sorted_ties_reversed
    (names : List String) (scores : List ℚ) :
    (rankedFeatureImportances names scores).Pairwise (fun a b => b.2 ≤ a.2) ∧
    (rankedFeatureImportances names scores).Perm (names.zip scores) ∧
    ∀ a b : String × ℚ, [a, b].Sublist (names.zip scores) → a.2 = b.2 →
      [b, a].Sublist (rankedFeatureImportances names scores) := by
  have htrans : ∀ a b c : String × ℚ,
      decide (a.2 ≤ b.2) → decide (b.2 ≤ c.2) → (decide (a.2 ≤ c.2) : Bool) := by
    intro a b c hab hbc
    simp only [decide_eq_true_eq] at *
    exact le_trans hab hbc
  have htotal : ∀ a b : String × ℚ,
      (decide (a.2 ≤ b.2) || decide (b.2 ≤ a.2) : Bool) := by
    intro a b
    simpa [Bool.or_eq_true, decide_eq_true_eq] using le_total a.2 b.2
  refine ⟨?_, ?_, ?_⟩
  · unfold rankedFeatureImportances
    rw [List.pairwise_reverse]
    exact (List.sorted_mergeSort htrans htotal (names.zip scores)).imp
      (fun h => by simpa using h)
  · exact (List.reverse_perm _).trans (List.mergeSort_perm _ _)
  · intro a b hsub heq
    have hab : (decide (a.2 ≤ b.2) : Bool) := by simp [heq.le]
    have hms := List.pair_sublist_mergeSort htrans htotal hab hsub
    simpa [rankedFeatureImportances] using hms.reverse

/-- C5 amended witness: two tied features, the later input one ranked
first. -/
theorem rankedFeatureImportances_sorted_ties_reversed_witness :
    [("y", (2 : ℚ)), ("x", 2)].Sublist (rankedFeatureImportances ["x", "y"] [2, 2]) :=
  (rankedFeatureImportances_sorted_ties_reversed ["x", "y"] [2, 2]).2.2
    ("x", 2) ("y", 2) (List.Sublist.refl _) rfl

/-- C8: each preset callback overwrites all eleven session keys with its
fixed literal example set, whatever the prior session state was. -/
theorem presets_overwrite_all_eleven (s : SessionState) :
    load_good_wine_preset s =
      { fixed_acidity := 6.6, volatile_acidity := 0.52, citric_acid := 0.08,
        residual_sugar := 2.4, chlorides := 0.07, free_sulfur_dioxide := 13.0,
        total_sulfur_dioxide := 32.0, density := 0.9955, ph := 3.42,
        sulphates := 0.62, alcohol := 11.4 } ∧
    load_not_good_wine_preset s =
      { fixed_acidity := 7.4, volatile_acidity := 0.7, citric_acid := 0.0,
        residual_sugar := 1.9, chlorides := 0.076, free_sulfur_dioxide := 11.0,
        total_sulfur_dioxide := 34.0, density := 0.9978, ph := 3.51,
        sulphates := 0.56, alcohol := 9.4 } :=
  ⟨rfl, rfl⟩

/-- C9: the not-good preset assigns every key exactly its `default_values`
entry, so on any session state it lands on the freshly initialized state; in
particular on the initial state it is the identity. -/
theorem not_good_preset_restores_defaults (s : SessionState) :
    load_not_good_wine_preset s = initSession ∧
    load_not_good_wine_preset initSession = initSession :=
  ⟨rfl, rfl⟩

/-- C10: the GOOD banner is chosen exactly when the predicted label is the
exact string good; an int, a differently-cased string, or any third class
falls to the NOT GOOD banner. -/
theorem good_banner_iff_exact_good_string (l : PyVal) :
    (verdictOf l = .good ↔ l = .str "good") ∧
    verdictOf (.int 1) = .notGood ∧
    verdictOf (.str "Good") = .notGood ∧
    verdictOf (.str "excellent") = .notGood := by
  refine ⟨?_, rfl, rfl, rfl⟩
  cases l with
  | int n => simp [verdictOf, pyEqGoodLiteral]
  | str s =>
    by_cases hs : s = "good" <;> simp [verdictOf, pyEqGoodLiteral, hs]

end WineApp
